import Mathlib

/-!
# Verification of the metabridge HTTP gateway and policy simulator

Shallow embedding of the request-handling logic of the metabridge
repository.  The repository contains three server variants:

* `src/server/routes.ts` — the TypeScript gateway (`registerRoutes`);
* `src/unnamed/part_001`, first document (lines 1–100) — a standalone
  Express server ("variant 1");
* `src/unnamed/part_001`, second document (lines 101–427) — the fuller
  standalone Express server ("variant 2") carrying the API-key guard with
  an OPTIONS carve-out, `toCents`, and the `/api/simulate` policy
  simulator.

JavaScript runtime values occurring in request bodies are modelled by
`JsValue`; JS numbers are modelled by exact rationals (`ℚ`).
-/

/-- A JSON/JavaScript value as it can appear in a parsed request body.
JS numbers are modelled as exact rationals; `undef` stands for
`undefined`, which is also what reading an absent property yields.
(NaN never arises from a parsed JSON body, so it is not a `JsValue`;
the NaN result of `Number(...)` is `none` of `jsNumber`.) -/
inductive JsValue where
  | undef : JsValue
  | null : JsValue
  | bool (b : Bool) : JsValue
  | num (q : ℚ) : JsValue
  | str (s : String) : JsValue
deriving DecidableEq, Repr

/-- JS truthiness of a `JsValue`: `undefined`, `null`, `false`, `0` and
`""` are falsy, everything else is truthy. -/
def truthy : JsValue → Bool
  | JsValue.undef => false
  | JsValue.null => false
  | JsValue.bool b => b
  | JsValue.num q => decide (q ≠ 0)
  | JsValue.str s => decide (s ≠ "")

/-- Value of a digit string, most significant first. -/
def digitsToNat (l : List Char) : ℕ :=
  l.foldl (fun a c => a * 10 + (c.toNat - 48)) 0

/-- Helper for `strToNumber`: the value of an unsigned decimal literal with
integer part `i` and fractional part `f`; `none` when a part contains a
non-digit or both parts are empty (JS: `Number(".") ` is NaN). -/
def decimalVal (i f : List Char) : Option ℚ :=
  if (i.isEmpty && f.isEmpty) || !(i.all Char.isDigit && f.all Char.isDigit) then
    none
  else
    some ((digitsToNat i : ℚ) + (digitsToNat f : ℚ) / (10 : ℚ) ^ f.length)

/-- JS `Number(s)` on a string, for plain decimal literals: optional
surrounding whitespace, optional sign, digits with an optional decimal
point; the empty (or all-whitespace) string converts to `0`.  Exotic
forms JS would also accept (exponents, hex, `Infinity`) convert to `none`
here; no theorem below evaluates them.  `none` represents NaN. -/
def strToNumber (s : String) : Option ℚ :=
  let t := s.trim.toList
  if t.isEmpty then some 0
  else
    let sgn : ℚ × List Char :=
      match t with
      | '-' :: r => (-1, r)
      | '+' :: r => (1, r)
      | r => (1, r)
    let ip := sgn.2.takeWhile (fun c => c ≠ '.')
    match sgn.2.drop ip.length with
    | [] => (decimalVal ip []).map (fun q => sgn.1 * q)
    | _ :: fp => (decimalVal ip fp).map (fun q => sgn.1 * q)

/-- JS `Number(v)` coercion; `none` represents NaN. -/
def jsNumber : JsValue → Option ℚ
  | JsValue.undef => none
  | JsValue.null => some 0
  | JsValue.bool b => some (if b then 1 else 0)
  | JsValue.num q => some q
  | JsValue.str s => strToNumber s

/-- JS `Math.round`: round half toward positive infinity,
`Math.round x = ⌊x + 1/2⌋`. -/
def jsRound (q : ℚ) : ℤ :=
  ⌊q + 1 / 2⌋

/-- Rounding half away from zero, the rule named by the specification for
the EUR→cents conversion.  Stated from the spec's words, to be compared
with the source's `Math.round`-based conversion. -/
def roundHalfAwayFromZero (q : ℚ) : ℤ :=
  if 0 ≤ q then ⌊q + 1 / 2⌋ else -(⌊-q + 1 / 2⌋)

/-- `toCents` of server variant 2 restricted to an actual JS number `x`
(where `Number(x) = x` and the `Number.isNaN` guard is vacuous):
`Math.round(x * 100)`. -/
def toCents (eur : ℚ) : ℤ :=
  jsRound (eur * 100)

/-- `toCents` of server variant 2 on an arbitrary argument:
`Number(eur)`, `undefined` on NaN, else `Math.round(n * 100)`. -/
def toCentsJs (eur : JsValue) : Option ℤ :=
  (jsNumber eur).map (fun n => jsRound (n * 100))

/-! ## The policy simulator (variant 2, `POST /api/simulate`) -/

/-- The static policy `DEFAULT_POLICY`.  `allowStatuses` keeps the
insertion order of the source's `Set`. -/
structure Policy where
  maxIncreasePct : ℚ
  maxDecreasePct : ℚ
  minDailyBudgetEur : ℚ
  allowStatuses : List String
deriving DecidableEq, Repr

def DEFAULT_POLICY : Policy :=
  { maxIncreasePct := 30
    maxDecreasePct := 30
    minDailyBudgetEur := 1
    allowStatuses := ["PAUSED", "ACTIVE", "ARCHIVED"] }

/-- A proposal as destructured by the simulate handler; absent properties
read as `undef`. -/
structure Proposal where
  id : JsValue
  type : JsValue
  delta_pct : JsValue
  new_daily_budget_eur : JsValue
  new_status : JsValue
deriving DecidableEq, Repr

/-- A per-proposal decision (`outcome` object of the proposals branch). -/
structure Outcome where
  id : JsValue
  type : JsValue
  approved : Bool
  reason : String
deriving DecidableEq, Repr

/-- `typeof new_daily_budget_eur === "number" && new_daily_budget_eur <
DEFAULT_POLICY.minDailyBudgetEur`: the guard under which the budget-floor
rejection fires. -/
def budgetBelowMin (v : JsValue) : Bool :=
  match v with
  | JsValue.num q => decide (q < DEFAULT_POLICY.minDailyBudgetEur)
  | _ => false

/-- `typeof delta_pct === "number" && (delta_pct >
DEFAULT_POLICY.maxIncreasePct || delta_pct <
-DEFAULT_POLICY.maxDecreasePct)`: the guard under which the delta
rejection fires. -/
def deltaOutOfRange (v : JsValue) : Bool :=
  match v with
  | JsValue.num q =>
      decide (DEFAULT_POLICY.maxIncreasePct < q) ||
        decide (q < -DEFAULT_POLICY.maxDecreasePct)
  | _ => false

/-- `DEFAULT_POLICY.allowStatuses.has(v)`: a JS `Set` of strings answers
`has` by SameValueZero, so any non-string member test is `false`. -/
def statusAllowed (v : JsValue) : Bool :=
  match v with
  | JsValue.str s => DEFAULT_POLICY.allowStatuses.contains s
  | _ => false

/-- The template literal `Presupuesto < mínimo (${DEFAULT_POLICY.minDailyBudgetEur} EUR)`
instantiated at the constant policy. -/
def reasonBudgetMin : String := "Presupuesto < mínimo (1 EUR)"

/-- The template literal for the delta rejection reason, interpolating
`maxIncreasePct` and `maxDecreasePct`, instantiated at the constant
policy. -/
def reasonDelta : String := "delta_pct fuera de umbral (+30/-30)"

/-- The proposals-branch callback of `POST /api/simulate` (variant 2,
lines 334–371): one decision per proposal, computed from the proposal
and `DEFAULT_POLICY` alone. -/
def evalProposal (p : Proposal) : Outcome :=
  let outcome : Outcome := ⟨p.id, p.type, false, ""⟩
  if p.type = JsValue.str "budget_change" then
    if budgetBelowMin p.new_daily_budget_eur then
      { outcome with reason := reasonBudgetMin }
    else if deltaOutOfRange p.delta_pct then
      { outcome with reason := reasonDelta }
    else
      { outcome with approved := true, reason := "OK" }
  else if p.type = JsValue.str "status_change" then
    if statusAllowed p.new_status then
      { outcome with approved := true, reason := "OK" }
    else
      { outcome with reason := "Estado no permitido" }
  else
    { outcome with reason := "Tipo no soportado" }

/-- Display of a `JsValue` inside a template literal, as JS `String(v)`.
Number formatting is approximated by the rational's own print form; the
only theorems touching it use string statuses, where the two agree. -/
def jsDisplay : JsValue → String
  | JsValue.undef => "undefined"
  | JsValue.null => "null"
  | JsValue.bool b => if b then "true" else "false"
  | JsValue.num q => toString q
  | JsValue.str s => s

/-- The `payload` object of the action+payload mode; only its `status`
property is read by the handler. -/
structure ActionPayload where
  status : JsValue
deriving DecidableEq, Repr

/-- One element of the `results` array of `POST /api/simulate`: a
decision from the proposals branch, the `ad_status` action outcome, or
the unsupported-action record (the three object shapes pushed by the
source). -/
inductive SimEntry where
  | fromProposal (o : Outcome) : SimEntry
  | fromAction (type : String) (payload : ActionPayload) (approved : Bool)
      (reason : String) : SimEntry
  | actionUnsupported (type : JsValue) (approved : Bool) (reason : String) : SimEntry
deriving DecidableEq, Repr

/-- The policy snapshot placed in every simulate response
(`Array.from` preserves the `Set`'s insertion order). -/
structure PolicySnapshot where
  maxIncreasePct : ℚ
  maxDecreasePct : ℚ
  minDailyBudgetEur : ℚ
  allowStatuses : List String
deriving DecidableEq, Repr

def policySnapshot : PolicySnapshot :=
  { maxIncreasePct := DEFAULT_POLICY.maxIncreasePct
    maxDecreasePct := DEFAULT_POLICY.maxDecreasePct
    minDailyBudgetEur := DEFAULT_POLICY.minDailyBudgetEur
    allowStatuses := DEFAULT_POLICY.allowStatuses }

/-- The body of `POST /api/simulate` after destructuring.  `context` is
`none` when the property is absent, in which case the destructuring
default `{}` applies; `proposals` is `some` exactly when
`Array.isArray(proposals)` holds; `payload` is `none` when absent (an
object present in JSON is truthy). -/
structure SimRequest where
  context : Option JsValue
  proposals : Option (List Proposal)
  action : JsValue
  payload : Option ActionPayload
deriving DecidableEq, Repr

/-- The JSON body of a successful simulate response.  `contextEcho` is
`none` for the defaulted `{}`; `timestamp` is the `now` argument
(`new Date().toISOString()` in the source). -/
structure SimResponse where
  mode : String
  contextEcho : Option JsValue
  policy : PolicySnapshot
  results : List SimEntry
  timestamp : String
deriving DecidableEq, Repr

/-- Result of the simulate handler: a 200 JSON body or the 400 error. -/
inductive SimResult where
  | ok (resp : SimResponse) : SimResult
  | badRequest (error : String) : SimResult
deriving DecidableEq, Repr

/-- The action+payload branch of `POST /api/simulate`. -/
def simulateActionMode (action : JsValue) (pl : ActionPayload) : SimEntry :=
  if action = JsValue.str "ad_status" then
    if statusAllowed pl.status then
      SimEntry.fromAction "status_change" pl true
        ("Status change to " ++ jsDisplay pl.status ++ " is allowed.")
    else
      SimEntry.fromAction "status_change" pl false
        ("Status " ++ jsDisplay pl.status ++ " not allowed.")
  else
    SimEntry.actionUnsupported action false "Acción no soportada"

/-- The `POST /api/simulate` handler (variant 2, lines 327–411): the
proposals branch maps `evalProposal` over the array; otherwise the
action+payload branch runs when both are truthy; otherwise 400. -/
def simulate (now : String) (req : SimRequest) : SimResult :=
  match req.proposals with
  | some ps =>
      SimResult.ok
        { mode := "simulation"
          contextEcho := req.context
          policy := policySnapshot
          results := ps.map (fun p => SimEntry.fromProposal (evalProposal p))
          timestamp := now }
  | none =>
      match req.payload with
      | some pl =>
          if truthy req.action then
            SimResult.ok
              { mode := "simulation"
                contextEcho := req.context
                policy := policySnapshot
                results := [simulateActionMode req.action pl]
                timestamp := now }
          else
            SimResult.badRequest "Falta proposals[] o action+payload"
      | none => SimResult.badRequest "Falta proposals[] o action+payload"

/-! ## The API-key guard middlewares -/

/-- Outcome of a guard middleware: fall through to the route, or 401. -/
inductive GuardOutcome where
  | next : GuardOutcome
  | unauthorized : GuardOutcome
deriving DecidableEq, Repr

/-- `OPEN_PATHS` of variant 2. -/
def OPEN_PATHS : List String := ["/api/health", "/healthz"]

/-- The API-key guard of variant 2 (part_001 lines 131–142).
`bridgeApiKey` is `process.env.BRIDGE_API_KEY?.trim()`, with `""`
standing for unset-or-empty (both falsy); `xApiKey` is the `X-API-Key`
header, `none` when absent.  Open paths and `OPTIONS` requests pass;
with no configured key everything passes; otherwise the header must be
truthy and equal to the key. -/
def apiKeyGuard (bridgeApiKey : String) (path method : String)
    (xApiKey : Option String) : GuardOutcome :=
  if path ∈ OPEN_PATHS then GuardOutcome.next
  else if method = "OPTIONS" then GuardOutcome.next
  else if bridgeApiKey = "" then GuardOutcome.next
  else
    match xApiKey with
    | some key =>
        if key ≠ "" ∧ key = bridgeApiKey then GuardOutcome.next
        else GuardOutcome.unauthorized
    | none => GuardOutcome.unauthorized

/-- The API-key guard of variant 1 (part_001 lines 12–20): open path
`/api/health` only, no `OPTIONS` carve-out, `!BRIDGE_API_KEY || key ===
BRIDGE_API_KEY`.  `""` again stands for unset-or-empty. -/
def apiKeyGuardV1 (bridgeApiKey : String) (path : String)
    (xApiKey : Option String) : GuardOutcome :=
  if path ∈ ["/api/health"] then GuardOutcome.next
  else if bridgeApiKey = "" ∨ xApiKey = some bridgeApiKey then GuardOutcome.next
  else GuardOutcome.unauthorized

/-! ## The insights endpoints (`POST /api/insights`) -/

/-- The body of `POST /api/insights` after destructuring; absent
properties read as `undef` (so the destructuring defaults for `level`
and `time_increment` apply exactly on `undef`). -/
structure InsightsBody where
  level : JsValue
  since : JsValue
  «until» : JsValue
  time_increment : JsValue
  breakdowns : JsValue
  fields : JsValue
  date_preset : JsValue
deriving DecidableEq, Repr

/-- A JS destructuring default: the default applies exactly when the
property is `undefined`. -/
def withDefault (v : JsValue) (d : JsValue) : JsValue :=
  if v = JsValue.undef then d else v

/-- The default `fields` string shared by both insights handlers. -/
def defaultInsightsFields : String :=
  "date_start,ad_id,adset_id,campaign_id,spend,clicks,ctr,cpm,actions,action_values,roas"

/-- The query parameters an insights handler sends to the Graph API.
`time_range` keeps the `{since, until}` pair that the source
JSON-stringifies. -/
structure InsightsParams where
  level : JsValue
  time_range : Option (JsValue × JsValue)
  time_increment : JsValue
  fields : JsValue
  breakdowns : Option JsValue
  date_preset : Option JsValue
deriving DecidableEq, Repr

/-- What an insights handler decides before any network I/O: an
immediate 400, an immediate 500 for missing configuration, or a forward
to the remote API (whose relayed response is outside this model). -/
inductive InsightsOutcome where
  | badRequest (error : String) : InsightsOutcome
  | serverError (error : String) : InsightsOutcome
  | forward (params : InsightsParams) : InsightsOutcome
deriving DecidableEq, Repr

/-- Whether an insights outcome is an immediate HTTP 400 response. -/
def InsightsOutcome.is400 : InsightsOutcome → Bool
  | InsightsOutcome.badRequest _ => true
  | _ => false

/-- `POST /api/insights` of `src/server/routes.ts` (lines 23–62).
`metaToken` and `adAccount` are the env vars, `""` for unset (falsy).
Missing or falsy `since`/`until` is rejected with 400 before anything
else; then the env checks; then the forward with `time_range` always
set. -/
def routesInsights (metaToken adAccount : String) (b : InsightsBody) :
    InsightsOutcome :=
  if ¬ truthy b.since ∨ ¬ truthy b.«until» then
    InsightsOutcome.badRequest "since and until dates are required"
  else if metaToken = "" then
    InsightsOutcome.serverError "META_SYSTEM_USER_TOKEN not configured"
  else if adAccount = "" then
    InsightsOutcome.serverError "META_AD_ACCOUNT_ID not configured"
  else
    InsightsOutcome.forward
      { level := withDefault b.level (JsValue.str "ad")
        time_range := some (b.since, b.«until»)
        time_increment := withDefault b.time_increment (JsValue.str "1")
        fields := if truthy b.fields then b.fields
                  else JsValue.str defaultInsightsFields
        breakdowns := if truthy b.breakdowns then some b.breakdowns else none
        date_preset := none }

/-- `POST /api/insights` of variant 2 (part_001 lines 215–255).  No
`since`/`until` requirement: when both are truthy a `time_range` is
sent, otherwise a truthy `date_preset` is sent if given, otherwise
neither. -/
def part001Insights (hasEssentialEnv : Bool) (b : InsightsBody) :
    InsightsOutcome :=
  if ¬ hasEssentialEnv then
    InsightsOutcome.serverError "Missing required env vars"
  else
    InsightsOutcome.forward
      { level := withDefault b.level (JsValue.str "ad")
        time_range :=
          if truthy b.since ∧ truthy b.«until» then some (b.since, b.«until»)
          else none
        time_increment := withDefault b.time_increment (JsValue.str "1")
        fields := if truthy b.fields then b.fields
                  else JsValue.str defaultInsightsFields
        breakdowns := if truthy b.breakdowns then some b.breakdowns else none
        date_preset :=
          if truthy b.since ∧ truthy b.«until» then none
          else if truthy b.date_preset then some b.date_preset
          else none }

/-! ## The ad-set budget endpoints (`POST /api/adset_budget`) -/

/-- What an adset-budget handler decides before any network I/O.
`forward`'s argument is the `daily_budget` query parameter in cents;
`none` there is NaN (routes.ts computes `Math.round(Number(v) * 100)`
with no NaN guard). -/
inductive BudgetOutcome where
  | badRequestMissing : BudgetOutcome
  | badRequestInvalid : BudgetOutcome
  | missingEnv : BudgetOutcome
  | forward (daily_budget : Option ℤ) : BudgetOutcome
deriving DecidableEq, Repr

/-- `POST /api/adset_budget` of `src/server/routes.ts` (lines 65–98):
`!adset_id || !daily_budget_eur` → 400 (truthiness, so `0` is
rejected), then the token check, then forward
`Math.round(Number(daily_budget_eur) * 100)`. -/
def routesAdsetBudget (metaToken : String) (adset_id daily_budget_eur : JsValue) :
    BudgetOutcome :=
  if ¬ truthy adset_id ∨ ¬ truthy daily_budget_eur then
    BudgetOutcome.badRequestMissing
  else if metaToken = "" then
    BudgetOutcome.missingEnv
  else
    BudgetOutcome.forward ((jsNumber daily_budget_eur).map (fun n => jsRound (n * 100)))

/-- `POST /api/adset_budget` of variant 2 (part_001 lines 260–288):
`!adset_id || daily_budget_eur === undefined` → 400 (so a present `0`
passes), then `toCents`, 400 when it is `undefined` (NaN), else forward
the cents value. -/
def part001AdsetBudget (hasEssentialEnv : Bool)
    (adset_id daily_budget_eur : JsValue) : BudgetOutcome :=
  if ¬ hasEssentialEnv then
    BudgetOutcome.missingEnv
  else if ¬ truthy adset_id ∨ daily_budget_eur = JsValue.undef then
    BudgetOutcome.badRequestMissing
  else
    match toCentsJs daily_budget_eur with
    | none => BudgetOutcome.badRequestInvalid
    | some c => BudgetOutcome.forward (some c)


/-! ## Example inputs for witnesses and counterexamples -/

def exDelta40P : Proposal :=
  { id := JsValue.str "p1"
    type := JsValue.str "budget_change"
    delta_pct := JsValue.num 40
    new_daily_budget_eur := JsValue.num 10
    new_status := JsValue.undef }

def exNonNumericP : Proposal :=
  { id := JsValue.str "p2"
    type := JsValue.str "budget_change"
    delta_pct := JsValue.str "0"
    new_daily_budget_eur := JsValue.undef
    new_status := JsValue.undef }

def exDeletedP : Proposal :=
  { id := JsValue.str "p3"
    type := JsValue.str "status_change"
    delta_pct := JsValue.undef
    new_daily_budget_eur := JsValue.undef
    new_status := JsValue.str "DELETED" }

def exUnknownP : Proposal :=
  { id := JsValue.str "p4"
    type := JsValue.str "campaign_clone"
    delta_pct := JsValue.undef
    new_daily_budget_eur := JsValue.undef
    new_status := JsValue.undef }

def exSimReq : SimRequest :=
  { context := some (JsValue.str "weekly review")
    proposals := some [exDelta40P, exDeletedP]
    action := JsValue.undef
    payload := none }

def exNoSinceBody : InsightsBody :=
  { level := JsValue.undef
    since := JsValue.undef
    «until» := JsValue.str "2024-02-01"
    time_increment := JsValue.undef
    breakdowns := JsValue.undef
    fields := JsValue.undef
    date_preset := JsValue.str "last_7d" }

/-! ## Helper lemmas -/

lemma evalProposal_budget_approved (p : Proposal)
    (ht : p.type = JsValue.str "budget_change") :
    (evalProposal p).approved =
      (!budgetBelowMin p.new_daily_budget_eur && !deltaOutOfRange p.delta_pct) := by
  unfold evalProposal
  rw [if_pos ht]
  cases h1 : budgetBelowMin p.new_daily_budget_eur <;>
    cases h2 : deltaOutOfRange p.delta_pct <;> simp [h1, h2]

lemma statusAllowed_iff (v : JsValue) :
    statusAllowed v = true ↔
      (v = JsValue.str "ACTIVE" ∨ v = JsValue.str "PAUSED" ∨
        v = JsValue.str "ARCHIVED") := by
  cases v <;> simp [statusAllowed, DEFAULT_POLICY]
  tauto

/-! ## Claims -/

/-- C1: for a `budget_change` proposal whose `new_daily_budget_eur` and
`delta_pct` fields are numbers `b` and `d`, the simulate decision is
rejected precisely when `b < 1` or `d` lies outside the inclusive
interval `[-30, 30]`, and otherwise approved; moreover every
`budget_change` proposal with `delta_pct = 40` is rejected, whatever its
other fields. -/
theorem budget_change_threshold_rules (p : Proposal) (b d : ℚ) :
    (p.type = JsValue.str "budget_change" →
      p.new_daily_budget_eur = JsValue.num b →
      p.delta_pct = JsValue.num d →
      ((evalProposal p).approved = false ↔ (b < 1 ∨ d < -30 ∨ 30 < d)))
    ∧
    (p.type = JsValue.str "budget_change" →
      p.delta_pct = JsValue.num 40 →
      (evalProposal p).approved = false) := by
  constructor
  · intro ht hb hd
    rw [evalProposal_budget_approved p ht, hb, hd]
    by_cases h1 : b < 1 <;> by_cases h2 : (30:ℚ) < d <;> by_cases h3 : d < -30 <;>
      simp [budgetBelowMin, deltaOutOfRange, DEFAULT_POLICY, h1, h2, h3]
  · intro ht hd
    rw [evalProposal_budget_approved p ht, hd]
    simp [deltaOutOfRange, DEFAULT_POLICY]
    norm_num

/-- C1 witness: the proposal `exDelta40P` (budget 10 EUR, delta 40) is
rejected, and its thresholds characterisation holds. -/
theorem budget_change_threshold_rules_witness :
    ((evalProposal exDelta40P).approved = false ↔
      ((10:ℚ) < 1 ∨ (40:ℚ) < -30 ∨ (30:ℚ) < 40))
    ∧ (evalProposal exDelta40P).approved = false :=
  ⟨(budget_change_threshold_rules exDelta40P 10 40).1 rfl rfl rfl,
    (budget_change_threshold_rules exDelta40P 10 40).2 rfl rfl⟩

/-- C2 counterexample: `toCents` is `Math.round`, which rounds half
toward positive infinity, not away from zero: at the euro amount
`-1/200` (i.e. `-0.005`) it yields `0`, while rounding half away from
zero on `-0.005 * 100 = -1/2` yields `-1`. -/
theorem toCents_not_half_away_at_negative :
    toCents (-(1/200)) = 0 ∧ roundHalfAwayFromZero ((-(1/200)) * 100) = -1 ∧
    (0 : ℤ) ≠ -1 := by
  refine ⟨?_, ?_, by decide⟩
  · unfold toCents jsRound
    norm_num
  · unfold roundHalfAwayFromZero
    norm_num

/-- C2 (amended): `toCents` is `Math.round(x * 100)`, rounding half
toward positive infinity; on every non-negative euro amount this agrees
with round-half-away-from-zero of `x * 100`. -/
theorem toCents_round_half_away_nonneg (x : ℚ) (hx : 0 ≤ x) :
    toCents x = roundHalfAwayFromZero (x * 100) := by
  unfold toCents jsRound roundHalfAwayFromZero
  rw [if_pos (mul_nonneg hx (by norm_num))]

/-- C2 witness: the amended claim at the non-negative amount `3/2`,
where both sides are `150`. -/
theorem toCents_round_half_away_nonneg_witness :
    toCents (3/2) = roundHalfAwayFromZero ((3/2) * 100) ∧ toCents (3/2) = 150 :=
  ⟨toCents_round_half_away_nonneg (3/2) (by norm_num),
    by unfold toCents jsRound; norm_num⟩

/-- C3 counterexample: the part_001 variant-2 insights handler does not
return 400 on a missing `since`: with the env configured it forwards the
request to the Graph API without a `time_range` (here with the
`date_preset` fallback). -/
theorem part001Insights_missing_since_not_400 :
    (part001Insights true exNoSinceBody).is400 = false ∧
    part001Insights true exNoSinceBody =
      InsightsOutcome.forward
        { level := JsValue.str "ad"
          time_range := none
          time_increment := JsValue.str "1"
          fields := JsValue.str defaultInsightsFields
          breakdowns := none
          date_preset := some (JsValue.str "last_7d") } := by
  constructor <;> rfl

/-- C3 (amended): in the `routes.ts` gateway, a `POST /api/insights`
body missing `since` or `until` is answered with HTTP 400 regardless of
every other field and of the configured env; the part_001 variant
instead forwards such a request without a `time_range`. -/
theorem routesInsights_missing_dates_400 (tok acct : String) (b : InsightsBody)
    (h : b.since = JsValue.undef ∨ b.«until» = JsValue.undef) :
    routesInsights tok acct b =
      InsightsOutcome.badRequest "since and until dates are required" := by
  unfold routesInsights
  rcases h with h | h <;> rw [h] <;> simp [truthy]

/-- C3 witness: the routes.ts handler rejects `exNoSinceBody` with the
400 message. -/
theorem routesInsights_missing_dates_400_witness :
    routesInsights "tok" "act_1" exNoSinceBody =
      InsightsOutcome.badRequest "since and until dates are required" :=
  routesInsights_missing_dates_400 "tok" "act_1" exNoSinceBody (Or.inl rfl)

/-- C4: a `status_change` proposal is approved iff its `new_status` is
one of `ACTIVE`, `PAUSED`, `ARCHIVED`; in particular `new_status =
"DELETED"` is always rejected. -/
theorem status_change_allowlist (p : Proposal)
    (ht : p.type = JsValue.str "status_change") :
    ((evalProposal p).approved = true ↔
      (p.new_status = JsValue.str "ACTIVE" ∨ p.new_status = JsValue.str "PAUSED" ∨
        p.new_status = JsValue.str "ARCHIVED"))
    ∧ (p.new_status = JsValue.str "DELETED" →
        (evalProposal p).approved = false) := by
  have hne : p.type ≠ JsValue.str "budget_change" := by rw [ht]; decide
  unfold evalProposal
  rw [if_neg hne, if_pos ht]
  constructor
  · rw [← statusAllowed_iff]
    cases h : statusAllowed p.new_status <;> simp [h]
  · intro hs
    rw [hs]
    simp [statusAllowed, DEFAULT_POLICY]

/-- C4 witness: the proposal `exDeletedP` (`new_status = "DELETED"`) is
rejected, and the allow-list characterisation holds on it. -/
theorem status_change_allowlist_witness :
    ((evalProposal exDeletedP).approved = true ↔
      (exDeletedP.new_status = JsValue.str "ACTIVE" ∨
        exDeletedP.new_status = JsValue.str "PAUSED" ∨
        exDeletedP.new_status = JsValue.str "ARCHIVED"))
    ∧ (exDeletedP.new_status = JsValue.str "DELETED" →
        (evalProposal exDeletedP).approved = false) :=
  status_change_allowlist exDeletedP rfl

/-- C5 counterexample: a proposal of unsupported type is rejected, but
the reason string is the Spanish `Tipo no soportado`, not the literal
`unsupported type`. -/
theorem unknown_type_reason_not_literal :
    (evalProposal exUnknownP).approved = false ∧
    (evalProposal exUnknownP).reason = "Tipo no soportado" ∧
    (evalProposal exUnknownP).reason ≠ "unsupported type" := by
  refine ⟨rfl, rfl, by decide⟩

/-- C5 (amended): every proposal whose type is neither `budget_change`
nor `status_change` is rejected with reason `Tipo no soportado` (the
source's Spanish wording of "unsupported type"). -/
theorem unknown_type_rejected (p : Proposal)
    (h1 : p.type ≠ JsValue.str "budget_change")
    (h2 : p.type ≠ JsValue.str "status_change") :
    (evalProposal p).approved = false ∧
    (evalProposal p).reason = "Tipo no soportado" := by
  unfold evalProposal
  rw [if_neg h1, if_neg h2]
  exact ⟨rfl, rfl⟩

/-- C5 witness: the amended claim at the `campaign_clone` proposal. -/
theorem unknown_type_rejected_witness :
    (evalProposal exUnknownP).approved = false ∧
    (evalProposal exUnknownP).reason = "Tipo no soportado" :=
  unknown_type_rejected exUnknownP (by decide) (by decide)

/-- C6: on a simulate request carrying a proposals list, the handler
answers 200 with one result per proposal, in order, each decision being
`evalProposal` of the corresponding proposal alone (no cross-proposal
interaction, no state), with the request context echoed as
`contextEcho` and the static policy snapshot included. -/
theorem simulate_proposals_independent (now : String) (req : SimRequest)
    (ps : List Proposal) (h : req.proposals = some ps) :
    ∃ resp : SimResponse,
      simulate now req = SimResult.ok resp ∧
      resp.results.length = ps.length ∧
      (∀ i : ℕ, resp.results[i]? =
        (ps[i]?).map (fun p => SimEntry.fromProposal (evalProposal p))) ∧
      resp.contextEcho = req.context ∧
      resp.policy = policySnapshot ∧
      resp.mode = "simulation" := by
  cases req with
  | mk ctx prps act pl =>
    cases h
    refine ⟨_, rfl, ?_, ?_, rfl, rfl, rfl⟩
    · simp [simulate]
    · intro i
      simp [simulate, List.getElem?_map]

/-- C6 witness: the two-proposal request `exSimReq` evaluated at a fixed
timestamp. -/
theorem simulate_proposals_independent_witness :
    ∃ resp : SimResponse,
      simulate "2024-03-01T00:00:00.000Z" exSimReq = SimResult.ok resp ∧
      resp.results.length = [exDelta40P, exDeletedP].length ∧
      (∀ i : ℕ, resp.results[i]? =
        ([exDelta40P, exDeletedP][i]?).map
          (fun p => SimEntry.fromProposal (evalProposal p))) ∧
      resp.contextEcho = exSimReq.context ∧
      resp.policy = policySnapshot ∧
      resp.mode = "simulation" :=
  simulate_proposals_independent "2024-03-01T00:00:00.000Z" exSimReq
    [exDelta40P, exDeletedP] rfl

/-- C7 counterexample: with a configured secret, an `OPTIONS` request to
a non-open path with a wrong `X-API-Key` passes the variant-2 guard
instead of being answered 401. -/
theorem apiKeyGuard_options_bypass :
    apiKeyGuard "secret123" "/api/simulate" "OPTIONS" (some "wrong") =
      GuardOutcome.next ∧
    GuardOutcome.next ≠ GuardOutcome.unauthorized := by
  exact ⟨rfl, by decide⟩

/-- C7 (amended): with a non-empty configured secret, every non-OPTIONS
request to a path outside the open health-check paths whose `X-API-Key`
header is missing or differs from the secret is answered 401
Unauthorized, and a request to `/api/health` is never rejected by the
guard. -/
theorem apiKeyGuard_secret_behaviour (secret path method : String)
    (key : Option String) :
    (secret ≠ "" → path ∉ OPEN_PATHS → method ≠ "OPTIONS" →
      key ≠ some secret →
      apiKeyGuard secret path method key = GuardOutcome.unauthorized)
    ∧ apiKeyGuard secret "/api/health" method key = GuardOutcome.next := by
  constructor
  · intro hs hp hm hk
    unfold apiKeyGuard
    rw [if_neg hp, if_neg hm, if_neg hs]
    cases key with
    | none => rfl
    | some k =>
        have hks : k ≠ secret := fun h => hk (by rw [h])
        simp [hks]
  · unfold apiKeyGuard
    rw [if_pos (by simp [OPEN_PATHS])]

/-- C7 witness: with secret `k1`, a POST to `/api/simulate` with the
wrong key is 401 and `/api/health` passes with no key at all. -/
theorem apiKeyGuard_secret_behaviour_witness :
    apiKeyGuard "k1" "/api/simulate" "POST" (some "bad") =
      GuardOutcome.unauthorized ∧
    apiKeyGuard "k1" "/api/health" "POST" none = GuardOutcome.next :=
  ⟨(apiKeyGuard_secret_behaviour "k1" "/api/simulate" "POST" (some "bad")).1
      (by decide) (by decide) (by decide) (by decide),
    (apiKeyGuard_secret_behaviour "k1" "/api/health" "POST" none).2⟩

/-- C8: a `budget_change` proposal whose `new_daily_budget_eur` and
`delta_pct` are both not of JS type number (absent, or e.g. the string
`"0"`) is approved with reason `OK`: the threshold rules fire only on
number-typed fields. -/
theorem budget_change_nonnumeric_approved (p : Proposal)
    (ht : p.type = JsValue.str "budget_change")
    (hb : ∀ q : ℚ, p.new_daily_budget_eur ≠ JsValue.num q)
    (hd : ∀ q : ℚ, p.delta_pct ≠ JsValue.num q) :
    (evalProposal p).approved = true ∧ (evalProposal p).reason = "OK" := by
  have h1 : budgetBelowMin p.new_daily_budget_eur = false := by
    unfold budgetBelowMin
    cases hv : p.new_daily_budget_eur with
    | num q => exact absurd hv (hb q)
    | _ => rfl
  have h2 : deltaOutOfRange p.delta_pct = false := by
    unfold deltaOutOfRange
    cases hv : p.delta_pct with
    | num q => exact absurd hv (hd q)
    | _ => rfl
  unfold evalProposal
  rw [if_pos ht]
  simp [h1, h2]

/-- C8 witness: the proposal `exNonNumericP` (budget absent, delta the
string `"0"`) is approved with reason `OK`. -/
theorem budget_change_nonnumeric_approved_witness :
    (evalProposal exNonNumericP).approved = true ∧
    (evalProposal exNonNumericP).reason = "OK" :=
  budget_change_nonnumeric_approved exNonNumericP rfl
    (fun q h => by cases h) (fun q h => by cases h)

/-- C9: with `BRIDGE_API_KEY` unset or empty, both API-key guard
variants admit every request on every path and method — the 401 branch
is unreachable. -/
theorem apiKeyGuard_no_secret_admits_all (path method : String)
    (key : Option String) :
    apiKeyGuard "" path method key = GuardOutcome.next ∧
    apiKeyGuardV1 "" path key = GuardOutcome.next := by
  constructor
  · unfold apiKeyGuard
    split_ifs with h1 h2 h3
    · rfl
    · rfl
    · rfl
    · exact absurd rfl h3
  · unfold apiKeyGuardV1
    split_ifs with h1 h2
    · rfl
    · rfl
    · exact absurd (Or.inl rfl) h2

/-- C10: the routes.ts budget endpoint rejects a present
`daily_budget_eur` of `0` — or any falsy value — with the
missing-fields 400, while the part_001 variant-2 endpoint accepts `0`
and forwards `daily_budget = 0` cents, since it only tests for
`undefined`. -/
theorem adset_budget_zero_divergence (tok : String) (a v : JsValue)
    (ha : truthy a = true) (hv : truthy v = false) :
    routesAdsetBudget tok a v = BudgetOutcome.badRequestMissing ∧
    routesAdsetBudget tok a (JsValue.num 0) = BudgetOutcome.badRequestMissing ∧
    part001AdsetBudget true a (JsValue.num 0) = BudgetOutcome.forward (some 0) := by
  refine ⟨?_, ?_, ?_⟩
  · unfold routesAdsetBudget
    rw [if_pos (Or.inr (by simp [hv]))]
  · unfold routesAdsetBudget
    rw [if_pos (Or.inr (by simp [truthy]))]
  · unfold part001AdsetBudget
    rw [if_neg (by simp), if_neg (by simp [ha])]
    have : toCentsJs (JsValue.num 0) = some 0 := by
      unfold toCentsJs jsNumber jsRound
      norm_num
    rw [this]

/-- C10 witness: with adset id `"238"` and the empty string as the falsy
value, routes.ts rejects both it and `0`, and part_001 forwards `0`. -/
theorem adset_budget_zero_divergence_witness :
    routesAdsetBudget "tok" (JsValue.str "238") (JsValue.str "") =
      BudgetOutcome.badRequestMissing ∧
    routesAdsetBudget "tok" (JsValue.str "238") (JsValue.num 0) =
      BudgetOutcome.badRequestMissing ∧
    part001AdsetBudget true (JsValue.str "238") (JsValue.num 0) =
      BudgetOutcome.forward (some 0) :=
  adset_budget_zero_divergence "tok" (JsValue.str "238") (JsValue.str "")
    (by decide) (by decide)
